import Mathlib

/-!
Verification of the insurance charge predictor app
(src/streamlit_insurance_app.py).

The app's only logic is: a one-hot feature encoder building the single-row
DataFrame `input_df` (lines 106-115), a call `model.predict(input_df)[0]`
whose result is shown as a two-decimal currency string (lines 117-127), a
cached model loader `load_model` (lines 11-15), and an analytics page whose
CSV read is wrapped in try/except (lines 137-158).  We embed these pieces
shallowly: numeric values are rationals, the model is an abstract function
from a list of rows to a list of outputs, and the streamlit form widgets
appear only through the lists of values they offer.
-/

namespace InsuranceApp

/-- The raw values read from the Predict page's form widgets
(lines 94-103 of the source): three numeric inputs and three
categorical strings. -/
structure PredictionRequest where
  age : ℚ
  bmi : ℚ
  children : ℚ
  smoker : String
  sex : String
  region : String
  deriving DecidableEq, Repr

/-- The 8 columns of the single-row DataFrame `input_df`
(lines 106-115 of the source), in source order. -/
structure FeatureVector where
  age : ℚ
  bmi : ℚ
  children : ℚ
  smoker : ℚ
  sex_male : ℚ
  region_northwest : ℚ
  region_southeast : ℚ
  region_southwest : ℚ
  deriving DecidableEq, Repr

/-- The one-hot encoder: the construction of `input_df` at lines 106-115.
Each categorical column is an equality test against a literal string;
the numeric columns are copied unchanged. -/
def input_df (req : PredictionRequest) : FeatureVector where
  age := req.age
  bmi := req.bmi
  children := req.children
  smoker := if req.smoker = "yes" then 1 else 0
  sex_male := if req.sex = "male" then 1 else 0
  region_northwest := if req.region = "northwest" then 1 else 0
  region_southeast := if req.region = "southeast" then 1 else 0
  region_southwest := if req.region = "southwest" then 1 else 0

/-- The fixed 8-field column order of the DataFrame, as the model sees it. -/
def FeatureVector.toList (v : FeatureVector) : List ℚ :=
  [v.age, v.bmi, v.children, v.smoker, v.sex_male,
   v.region_northwest, v.region_southeast, v.region_southwest]

/-- Values offered by the Smoker selectbox (line 99 of the source). -/
def smokerOptions : List String := ["yes", "no"]

/-- Values offered by the Sex selectbox (line 102 of the source). -/
def sexOptions : List String := ["male", "female"]

/-- Values offered by the Region selectbox (line 103 of the source). -/
def regionOptions : List String := ["northwest", "southeast", "southwest"]

/-- The two-decimal rounding performed by the `:.2f` display format at
line 123 of the source: round to the nearest hundredth. -/
def format2 (q : ℚ) : ℚ := ((round (q * 100) : ℤ) : ℚ) / 100

/-- The Predict button handler (lines 117-127 of the source):
`prediction = model.predict(input_df)[0]`, then the result card shows
`prediction` formatted to two decimals.  The model is abstract: a function
from a list of input rows to a list of numeric outputs.  The pair holds
the value bound to `prediction` and the value rendered in the card;
taking element `[0]` of an empty output fails, hence the `Option`. -/
def predictOnVector (m : List (List ℚ) → List ℚ) (v : FeatureVector) :
    Option (ℚ × ℚ) :=
  match m [v.toList] with
  | [] => none
  | p :: _ => some (p, format2 p)

/-- The full Predict-page pipeline: encode the form values, then predict. -/
def predictClick (m : List (List ℚ) → List ℚ) (req : PredictionRequest) :
    Option (ℚ × ℚ) :=
  predictOnVector m (input_df req)

/-- Outcome of `pd.read_csv("insurance.csv")` at line 138 of the source:
either a parsed dataset or a failure (file missing or unparseable). -/
inductive DatasetLoad (α : Type) where
  | ok (df : α)
  | failure
  deriving DecidableEq, Repr

/-- What the Analytics page renders: the three chart tabs built from the
dataset, or the error message from the `except` branch. -/
inductive AnalyticsView (α : Type) where
  | charts (df : α)
  | errorMessage (msg : String)
  deriving DecidableEq, Repr

/-- The Analytics page body (lines 137-158 of the source): the whole CSV
read and chart construction sit inside `try`, and the `except` branch
shows `st.error` with a fixed message. -/
def analyticsPage {α : Type} (r : DatasetLoad α) : AnalyticsView α :=
  match r with
  | .ok df => .charts df
  | .failure =>
      .errorMessage "Dataset 'insurance.csv' not found. Upload it in the next tab."

/-- Modelled from the spec: the `@st.cache_resource` decorator on
`load_model` (lines 11-13 of the source) is streamlit library code not in
src; per the spec the decorated loader is "loaded once ... and cached for
reuse for the process's lifetime so repeated predictions do not re-read
the artifact from storage".  One call to the cached loader: given the
cache state, return the handle, the new cache state, and how many times
the artifact was read from storage during this call. -/
def load_model {M : Type} (loadArtifact : Unit → M) :
    Option M → M × Option M × ℕ
  | none => (loadArtifact (), some (loadArtifact ()), 1)
  | some m => (m, some m, 0)

/-- A process lifetime with `n` calls to the cached loader, starting from
cache state `st`: the list of handles returned and the total number of
artifact reads from storage. -/
def runLoadCalls {M : Type} (loadArtifact : Unit → M) :
    ℕ → Option M → List M × ℕ
  | 0, _ => ([], 0)
  | n + 1, st =>
      let c := load_model loadArtifact st
      let rest := runLoadCalls loadArtifact n c.2.1
      (c.1 :: rest.1, c.2.2 + rest.2)

/-- Property: exactly one of the three region flags of a feature vector
is 1 and the other two are 0. -/
def exactlyOneRegionFlag (v : FeatureVector) : Prop :=
  (v.region_northwest = 1 ∧ v.region_southeast = 0 ∧ v.region_southwest = 0) ∨
  (v.region_northwest = 0 ∧ v.region_southeast = 1 ∧ v.region_southwest = 0) ∨
  (v.region_northwest = 0 ∧ v.region_southeast = 0 ∧ v.region_southwest = 1)

instance (v : FeatureVector) : Decidable (exactlyOneRegionFlag v) := by
  unfold exactlyOneRegionFlag; infer_instance

end InsuranceApp

namespace InsuranceApp

/-- The spec's worked example: request (35, 27.5, 2, yes, female, southeast)
encodes to [35, 27.5, 2, 1, 0, 0, 1, 0]. -/
theorem encode_example :
    input_df ⟨35, 55 / 2, 2, "yes", "female", "southeast"⟩ =
      ⟨35, 55 / 2, 2, 1, 0, 0, 1, 0⟩ := by
  simp [input_df]

/-- C1: for every region string in {northwest, southeast, southwest} the
encoder sets exactly the matching region flag to 1 and the other two to 0,
and for every other string all three region flags are 0. -/
theorem c1_region_onehot (req : PredictionRequest) :
    (req.region = "northwest" →
      (input_df req).region_northwest = 1 ∧
      (input_df req).region_southeast = 0 ∧
      (input_df req).region_southwest = 0) ∧
    (req.region = "southeast" →
      (input_df req).region_northwest = 0 ∧
      (input_df req).region_southeast = 1 ∧
      (input_df req).region_southwest = 0) ∧
    (req.region = "southwest" →
      (input_df req).region_northwest = 0 ∧
      (input_df req).region_southeast = 0 ∧
      (input_df req).region_southwest = 1) ∧
    (req.region ≠ "northwest" → req.region ≠ "southeast" →
      req.region ≠ "southwest" →
      (input_df req).region_northwest = 0 ∧
      (input_df req).region_southeast = 0 ∧
      (input_df req).region_southwest = 0) := by
  refine ⟨fun h => ?_, fun h => ?_, fun h => ?_, fun h₁ h₂ h₃ => ?_⟩
  · simp [input_df, h]
  · simp [input_df, h]
  · simp [input_df, h]
  · simp [input_df, h₁, h₂, h₃]

/-- Witness for C1: the southeast input sets exactly the southeast flag,
and the unrecognized string "northeast" yields all-zero region flags. -/
theorem c1_region_onehot_witness :
    ((input_df ⟨35, 27, 2, "yes", "female", "southeast"⟩).region_northwest = 0 ∧
     (input_df ⟨35, 27, 2, "yes", "female", "southeast"⟩).region_southeast = 1 ∧
     (input_df ⟨35, 27, 2, "yes", "female", "southeast"⟩).region_southwest = 0) ∧
    ((input_df ⟨35, 27, 2, "yes", "female", "northeast"⟩).region_northwest = 0 ∧
     (input_df ⟨35, 27, 2, "yes", "female", "northeast"⟩).region_southeast = 0 ∧
     (input_df ⟨35, 27, 2, "yes", "female", "northeast"⟩).region_southwest = 0) :=
  ⟨(c1_region_onehot ⟨35, 27, 2, "yes", "female", "southeast"⟩).2.1 rfl,
   (c1_region_onehot ⟨35, 27, 2, "yes", "female", "northeast"⟩).2.2.2
     (by decide) (by decide) (by decide)⟩

/-- C2: the encoder's smoker flag is 1 iff the smoker input is "yes", and
0 iff it is not (so "no" yields 0). -/
theorem c2_smoker_flag (req : PredictionRequest) :
    ((input_df req).smoker = 1 ↔ req.smoker = "yes") ∧
    ((input_df req).smoker = 0 ↔ req.smoker ≠ "yes") := by
  by_cases h : req.smoker = "yes" <;> simp [input_df, h]

/-- C3: the encoder's sex_male flag is 1 iff the sex input is "male", and
0 iff it is not (so "female" yields 0). -/
theorem c3_sex_male_flag (req : PredictionRequest) :
    ((input_df req).sex_male = 1 ↔ req.sex = "male") ∧
    ((input_df req).sex_male = 0 ↔ req.sex ≠ "male") := by
  by_cases h : req.sex = "male" <;> simp [input_df, h]

/-- C4: age, bmi and children pass through the encoder unchanged for any
numeric values (no range check), and they are the first three fields of
the output vector in order. -/
theorem c4_numeric_passthrough (req : PredictionRequest) :
    (input_df req).age = req.age ∧
    (input_df req).bmi = req.bmi ∧
    (input_df req).children = req.children ∧
    (input_df req).toList.take 3 = [req.age, req.bmi, req.children] := by
  simp [input_df, FeatureVector.toList]

/-- C5: whenever the model's output collection on the single-row input in
the fixed 8-field order has first element y, the predict operation returns
exactly y, and the two-decimal formatting appears only in the displayed
component. -/
theorem c5_predict_first_element (m : List (List ℚ) → List ℚ)
    (req : PredictionRequest) (y : ℚ) (ys : List ℚ)
    (h : m [(input_df req).toList] = y :: ys) :
    predictClick m req = some (y, format2 y) := by
  unfold predictClick predictOnVector
  rw [h]

/-- Witness for C5: a model answering 1234.567 makes predictClick return
the unrounded 1234.567 while the display component rounds to 1234.57. -/
theorem c5_predict_first_element_witness :
    predictClick (fun _ => [1234567 / 1000])
        ⟨35, 27, 2, "yes", "female", "southeast"⟩ =
      some (1234567 / 1000, format2 (1234567 / 1000)) ∧
    format2 ((1234567 : ℚ) / 1000) ≠ 1234567 / 1000 := by
  refine ⟨c5_predict_first_element (fun _ => [1234567 / 1000])
    ⟨35, 27, 2, "yes", "female", "southeast"⟩ (1234567 / 1000) [] rfl, ?_⟩
  rw [format2, round_eq]
  norm_num

/-- C6: the encoder is deterministic and depends only on the six request
fields: two requests agreeing on age, bmi, children, smoker, sex and
region encode to identical feature vectors. -/
theorem c6_encoder_deterministic (r₁ r₂ : PredictionRequest)
    (hage : r₁.age = r₂.age) (hbmi : r₁.bmi = r₂.bmi)
    (hch : r₁.children = r₂.children) (hsm : r₁.smoker = r₂.smoker)
    (hsex : r₁.sex = r₂.sex) (hreg : r₁.region = r₂.region) :
    input_df r₁ = input_df r₂ := by
  cases r₁
  cases r₂
  simp_all [input_df]

/-- Witness for C6: two runs on the same concrete request give identical
feature vectors. -/
theorem c6_encoder_deterministic_witness :
    input_df ⟨40, 30, 1, "no", "male", "northwest"⟩ =
      input_df ⟨40, 30, 1, "no", "male", "northwest"⟩ :=
  c6_encoder_deterministic ⟨40, 30, 1, "no", "male", "northwest"⟩
    ⟨40, 30, 1, "no", "male", "northwest"⟩ rfl rfl rfl rfl rfl rfl

/-- C7: the predict operation is deterministic: with the same model, two
feature vectors with the same row representation give the same result. -/
theorem c7_predict_deterministic (m : List (List ℚ) → List ℚ)
    (v₁ v₂ : FeatureVector) (h : v₁.toList = v₂.toList) :
    predictOnVector m v₁ = predictOnVector m v₂ := by
  unfold predictOnVector
  rw [h]

/-- Witness for C7: two calls on the same concrete vector and model agree. -/
theorem c7_predict_deterministic_witness :
    predictOnVector (fun _ => [100]) ⟨40, 30, 1, 0, 1, 1, 0, 0⟩ =
      predictOnVector (fun _ => [100]) ⟨40, 30, 1, 0, 1, 1, 0, 0⟩ :=
  c7_predict_deterministic (fun _ => [100]) ⟨40, 30, 1, 0, 1, 1, 0, 0⟩
    ⟨40, 30, 1, 0, 1, 1, 0, 0⟩ rfl

/-- C8: the analytics page never leaves the two handled outcomes (charts
or an error message), and a failed dataset load yields exactly the
fallback error message. -/
theorem c8_analytics_handled (α : Type) (r : DatasetLoad α) :
    (r = DatasetLoad.failure →
      analyticsPage r = AnalyticsView.errorMessage
        "Dataset \x27insurance.csv\x27 not found. Upload it in the next tab.") ∧
    ((∃ df, analyticsPage r = AnalyticsView.charts df) ∨
      analyticsPage r = AnalyticsView.errorMessage
        "Dataset \x27insurance.csv\x27 not found. Upload it in the next tab.") := by
  cases r <;> simp [analyticsPage]

/-- Witness for C8: the failure case of the dataset load renders the
fallback error message. -/
theorem c8_analytics_handled_witness :
    analyticsPage (DatasetLoad.failure (α := ℕ)) = AnalyticsView.errorMessage
      "Dataset \x27insurance.csv\x27 not found. Upload it in the next tab." :=
  (c8_analytics_handled ℕ DatasetLoad.failure).1 rfl

/-- Helper for C9: once the cache holds a handle, further calls read the
artifact zero times and all return that same handle. -/
theorem runLoadCalls_cached {M : Type} (loadArtifact : Unit → M) :
    ∀ (n : ℕ) (m : M),
      runLoadCalls loadArtifact n (some m) = (List.replicate n m, 0) := by
  intro n
  induction n with
  | zero => intro m; rfl
  | succ k ih => intro m; simp [runLoadCalls, load_model, ih, List.replicate_succ]

/-- C9: over any process lifetime of n ≥ 1 calls to the cached loader
starting from an empty cache, the artifact is read from storage exactly
once and every call returns the same loaded handle. -/
theorem c9_model_loaded_once {M : Type} (loadArtifact : Unit → M) (n : ℕ)
    (h : 1 ≤ n) :
    (runLoadCalls loadArtifact n none).2 = 1 ∧
    ∀ m ∈ (runLoadCalls loadArtifact n none).1, m = loadArtifact () := by
  cases n with
  | zero => exact absurd h (by decide)
  | succ k =>
      have hrun : runLoadCalls loadArtifact (k + 1) none =
          (loadArtifact () :: List.replicate k (loadArtifact ()), 1) := by
        simp [runLoadCalls, load_model, runLoadCalls_cached]
      rw [hrun]
      refine ⟨rfl, fun m hm => ?_⟩
      rcases List.mem_cons.mp hm with hm | hm
      · exact hm
      · exact List.eq_of_mem_replicate hm

/-- Witness for C9: three loader calls on a concrete artifact read storage
once and always return the same handle. -/
theorem c9_model_loaded_once_witness :
    (runLoadCalls (fun _ => (42 : ℕ)) 3 none).2 = 1 ∧
    ∀ m ∈ (runLoadCalls (fun _ => (42 : ℕ)) 3 none).1, m = 42 :=
  c9_model_loaded_once (fun _ => (42 : ℕ)) 3 (by decide)

/-- C10: under the precondition that the region input comes from the
Predict page's selectbox options, the all-zero region fallback is
unreachable: the encoding has exactly one region flag set to 1. -/
theorem c10_ui_region_always_onehot (req : PredictionRequest)
    (h : req.region ∈ regionOptions) :
    exactlyOneRegionFlag (input_df req) := by
  simp only [regionOptions, List.mem_cons, List.mem_singleton,
    List.not_mem_nil, or_false] at h
  rcases h with h | h | h
  · exact Or.inl (by simp [input_df, h])
  · exact Or.inr (Or.inl (by simp [input_df, h]))
  · exact Or.inr (Or.inr (by simp [input_df, h]))

/-- Witness for C10: a selectbox value ("southwest") gives exactly one
region flag. -/
theorem c10_ui_region_always_onehot_witness :
    exactlyOneRegionFlag (input_df ⟨35, 27, 2, "yes", "female", "southwest"⟩) :=
  c10_ui_region_always_onehot ⟨35, 27, 2, "yes", "female", "southwest"⟩
    (by simp [regionOptions])

end InsuranceApp
